import Mathlib

/-!
# Verification of the middle-click drag-to-scroll controller

Shallow embedding of `src/vs/editor/contrib/middleScroll/browser/middleScroll.ts`
(class `MiddleScrollController`).

The controller's mutable fields, the editor viewport's scroll offsets, the
body-level DOM state (the `data-scroll-direction` attribute and the
`scroll-editor-on-middle-click-editor` class), the indicator dot, the
window `mousemove` listener registration, and the animation-frame scheduler
are gathered into one machine state `MState`.  Pointer page coordinates and
scroll offsets are integers (CSS pixel values).  The only fractional
intermediate in the source is `Math.round((diff ∓ threshold) / speed)`;
JS `Math.round` rounds half toward positive infinity, so the composite
"divide by `d`, then round" is modelled exactly by the integer formula
`jsRoundDiv n d = (2*n + d) / (2*d)` (floor division, `d > 0`), and
`jsRoundDiv_eq_floor` proves it equal to `⌊n/d + 1/2⌋` over `ℚ`.

The frame scheduler is modelled by a `pending : Option ℕ` handle:
`requestAnimationFrame` records a fresh handle, `cancelAnimationFrame h`
clears it when `h` matches, and a frame tick can fire only while a handle
is pending (a cancelled callback never fires).
-/

namespace MiddleScroll

/-- Model of JS `Math.round (n / d)` for integer `n` and positive integer
`d`: round half toward positive infinity, as an exact integer formula. -/
def jsRoundDiv (n d : ℤ) : ℤ := (2 * n + d) / (2 * d)

/-- Constant from the source, `private threshold: number = 5` — the
deadzone radius. -/
def threshold : ℤ := 5

/-- Constant from the source, `private speed: number = 2` — the speed
divisor. -/
def speed : ℤ := 2

/-- State of the indicator dot element: its `hidden` class and its
`style.left` / `style.top` position. -/
structure DotState where
  hidden : Bool
  left : ℤ
  top : ℤ
  deriving DecidableEq, Repr

/-- Controller fields of `MiddleScrollController` together with the
observable collaborators (viewport offsets, body DOM state, move-listener
registration) and the animation-frame scheduler. -/
structure MState where
  /-- Field `private moving: boolean` (`hasMoved` in the spec). -/
  moving : Bool
  /-- Field `private scrolling: boolean`. -/
  scrolling : Bool
  /-- Field `private currentX: number | null`. -/
  currentX : Option ℤ
  /-- Field `private currentY: number | null`. -/
  currentY : Option ℤ
  /-- Field `private x: number | null` — the anchor x coordinate. -/
  x : Option ℤ
  /-- Field `private y: number | null` — the anchor y coordinate. -/
  y : Option ℤ
  /-- Field `private animationFrameId: number | null`. -/
  animationFrameId : Option ℕ
  /-- Field `private dot: HTMLDivElement | null`. -/
  dot : Option DotState
  /-- Viewport offset read and written via `getScrollTop` / `setScrollTop`. -/
  scrollTop : ℤ
  /-- Viewport offset read and written via `getScrollLeft` / `setScrollLeft`. -/
  scrollLeft : ℤ
  /-- Body attribute `data-scroll-direction` (`none` = attribute absent). -/
  dataScrollDirection : Option String
  /-- Body class `scroll-editor-on-middle-click-editor` present. -/
  bodyClass : Bool
  /-- Whether the window `mousemove` listener (`setCurrent`) is registered. -/
  moveListener : Bool
  /-- Scheduler: handle of the pending animation-frame callback, if any. -/
  pending : Option ℕ
  /-- Scheduler: next fresh handle `requestAnimationFrame` will return. -/
  nextHandle : ℕ
  deriving DecidableEq, Repr

/-- Per-axis scroll step of `scrollPane`:
`Math.round((diff ∓ threshold) / speed)` outside the deadzone, else `0`. -/
def moveOf (diff : ℤ) : ℤ :=
  if diff > threshold then jsRoundDiv (diff - threshold) speed
  else if diff < -threshold then jsRoundDiv (diff + threshold) speed
  else 0

/-- Direction code built in `scrollPane`:
`'n'`/`'s'` from the vertical step, then `'w'`/`'e'` from the horizontal. -/
def dirOf (moveTop moveLeft : ℤ) : String :=
  (if moveTop < 0 then "n" else if moveTop > 0 then "s" else "")
    ++ (if moveLeft < 0 then "w" else if moveLeft > 0 then "e" else "")

/-- Body of `scrollPane()` once all four samples are known non-null:
reads the offsets, computes the deadzone-clamped steps, publishes the
direction code, may set `moving`, writes the new offsets, and schedules
the next frame (recording the fresh handle in `animationFrameId`). -/
def scrollPaneGo (cx cy ax ay : ℤ) (s : MState) : MState :=
  let moveTop := moveOf (cy - ay)
  let moveLeft := moveOf (cx - ax)
  let direction := dirOf moveTop moveLeft
  { s with
    moving := if direction ≠ "" then true else s.moving
    dataScrollDirection := some direction
    scrollTop := s.scrollTop + moveTop
    scrollLeft := s.scrollLeft + moveLeft
    pending := some s.nextHandle
    animationFrameId := some s.nextHandle
    nextHandle := s.nextHandle + 1 }

/-- Model of `scrollPane()`: returns immediately when any of `currentX`,
`currentY`, `x`, `y` is `null`; otherwise runs the scroll step. -/
def scrollPane (s : MState) : MState :=
  match s.currentX, s.currentY, s.x, s.y with
  | some cx, some cy, some ax, some ay => scrollPaneGo cx cy ax ay s
  | _, _, _, _ => s

/-- Model of `stopScroll()`: clears the flags, removes the move listener,
cancels a non-null animation frame (the scheduler drops the pending
callback when the handles match), hides the dot if present, and removes
the body attribute and class. -/
def stopScroll (s : MState) : MState :=
  { s with
    scrolling := false
    moving := false
    moveListener := false
    pending :=
      match s.animationFrameId with
      | some h => if s.pending = some h then none else s.pending
      | none => s.pending
    animationFrameId := none
    dot :=
      match s.dot with
      | some d => some { d with hidden := true }
      | none => none
    dataScrollDirection := none
    bodyClass := false }

/-- Model of `startScroll(e)`: tears down a running session first, raises
the flags, positions and shows the dot if created, records anchor and
current samples, registers the move listener, and runs the first
`scrollPane` synchronously. -/
def startScroll (px py : ℤ) (s : MState) : MState :=
  let s0 := if s.scrolling then stopScroll s else s
  scrollPane
    { s0 with
      scrolling := true
      moving := false
      bodyClass := true
      dot :=
        match s0.dot with
        | some _ => some { hidden := false, left := px, top := py }
        | none => none
      x := some px
      y := some py
      currentX := some px
      currentY := some py
      moveListener := true }

/-- Model of `setCurrent(e)`: overwrite the current sample with the event
position. -/
def setCurrent (px py : ℤ) (s : MState) : MState :=
  { s with currentX := some px, currentY := some py }

/-- Model of `createDot()`: create the (hidden) indicator dot. -/
def createDot (s : MState) : MState :=
  { s with dot := some { hidden := true, left := 0, top := 0 } }

/-- Model of `windowMouseDown(e)`: while scrolling any button press stops
the session; while idle the dot is lazily created and a middle press
starts a session at the event position. -/
def windowMouseDown (middleButton : Bool) (px py : ℤ) (s : MState) : MState :=
  if s.scrolling then stopScroll s
  else
    let s1 := if s.dot = none then createDot s else s
    if middleButton then startScroll px py s1 else s1

/-- Model of `windowMouseUp()`: stops the session only when `moving` is
set. -/
def windowMouseUp (s : MState) : MState :=
  if s.moving then stopScroll s else s

/-- Model of `dispose()`: the disposable store runs `stopScroll` and then
removes the dot element. -/
def disposeController (s : MState) : MState :=
  { stopScroll s with dot := none }

/-- Initial controller state: idle, no samples, no dot, offsets zero. -/
def init : MState :=
  { moving := false
    scrolling := false
    currentX := none
    currentY := none
    x := none
    y := none
    animationFrameId := none
    dot := none
    scrollTop := 0
    scrollLeft := 0
    dataScrollDirection := none
    bodyClass := false
    moveListener := false
    pending := none
    nextHandle := 0 }

/-- External events driving the controller. -/
inductive Ev where
  /-- Editor `mousedown` with button identity and page position. -/
  | down (middleButton : Bool) (px py : ℤ)
  /-- Editor `mouseup`. -/
  | up
  /-- Window `mousemove` at a page position. -/
  | move (px py : ℤ)
  /-- The scheduler fires the pending animation-frame callback. -/
  | tick
  /-- Controller disposal. -/
  | dispose
  deriving DecidableEq, Repr

/-- One step of the event semantics.  A `move` reaches `setCurrent` only
while the listener is registered; a `tick` fires only while a frame is
pending (the callback is consumed, then `scrollPane` runs). -/
def step (s : MState) (e : Ev) : MState :=
  match e with
  | .down b px py => windowMouseDown b px py s
  | .up => windowMouseUp s
  | .move px py => if s.moveListener then setCurrent px py s else s
  | .tick =>
      match s.pending with
      | some _ => scrollPane { s with pending := none }
      | none => s
  | .dispose => disposeController s

/-- Run an event sequence from the initial state. -/
def run (es : List Ev) : MState := es.foldl step init

/-- Scrolling state with anchor `(100, 100)` and current `(100, 106)`. -/
def s106 : MState :=
  { init with
    scrolling := true
    x := some 100
    y := some 100
    currentX := some 100
    currentY := some 106
    moveListener := true }

/-- Scrolling state with anchor `(100, 100)` and current `(100, 94)`. -/
def s94 : MState :=
  { init with
    scrolling := true
    x := some 100
    y := some 100
    currentX := some 100
    currentY := some 94
    moveListener := true }

/-- Scrolling state with movement recorded and nothing else set. -/
def c2state : MState := { init with scrolling := true, moving := true }

/-- Scrolling state with anchor and current both `(100, 100)`. -/
def c9state : MState :=
  { init with
    scrolling := true
    x := some 100
    y := some 100
    currentX := some 100
    currentY := some 100
    moveListener := true }

/-- Scrolling state whose `currentX` sample is absent. -/
def s7gap : MState :=
  { init with
    scrolling := true
    currentX := none
    currentY := some 0
    x := some 0
    y := some 0 }

/-- State of a Scrolling session with a pending frame and a displaced
current sample, right after `stopScroll`. -/
def s5stopped : MState :=
  stopScroll
    { init with
      scrolling := true
      moving := true
      x := some 0
      y := some 0
      currentX := some 0
      currentY := some 20
      moveListener := true
      animationFrameId := some 3
      pending := some 3
      nextHandle := 4 }

/-- Inductive invariant of the event semantics: an idle controller has no
recorded frame, no recorded movement and no pending frame callback, and
any pending callback handle is the recorded `animationFrameId`. -/
def Inv (s : MState) : Prop :=
  (s.scrolling = false → s.animationFrameId = none ∧ s.moving = false ∧ s.pending = none) ∧
  (s.pending = none ∨ s.pending = s.animationFrameId)

/-- Modelled from the claim's words: "a middle-button down has occurred
more recently than any stop-triggering up or disposal".  The Boolean
accumulator becomes true on every middle-button down, false on every up
delivered while movement is recorded (the ups that trigger a stop) and on
disposal, and is otherwise unchanged; the state is advanced alongside to
judge which ups are stop-triggering. -/
def claimRecentAux : MState → Bool → List Ev → Bool
  | _, r, [] => r
  | s, r, e :: es =>
      claimRecentAux (step s e)
        (match e with
          | .down true _ _ => true
          | .up => if s.moving = true then false else r
          | .dispose => false
          | _ => r) es

/-- Modelled from the claim's words, over runs from the initial state. -/
def claimRecent (es : List Ev) : Bool := claimRecentAux init false es

/-- Amended recency predicate: true exactly when a session-starting
middle-down (one delivered while Idle) has occurred more recently than any
stop-triggering event — a press delivered while Scrolling, an up delivered
while movement is recorded, or disposal. -/
def sessionRecentAux : MState → Bool → List Ev → Bool
  | _, r, [] => r
  | s, r, e :: es =>
      sessionRecentAux (step s e)
        (match e with
          | .down b _ _ =>
              if s.scrolling = true then false else if b = true then true else r
          | .up => if s.moving = true then false else r
          | .dispose => false
          | _ => r) es

/-- Amended recency predicate over runs from the initial state. -/
def sessionRecent (es : List Ev) : Bool := sessionRecentAux init false es

/-! ## Helper lemmas -/

/-- Evaluation of `jsRoundDiv` as rational division followed by JS
`Math.round` (round half toward positive infinity). -/
theorem jsRoundDiv_eq_floor (n d : ℤ) (hd : 0 < d) :
    jsRoundDiv n d = ⌊(n : ℚ) / (d : ℚ) + 1 / 2⌋ := by
  lift d to ℕ using hd.le with m
  have hm : 0 < m := by exact_mod_cast hd
  have h1 : (n : ℚ) / ((m : ℤ) : ℚ) + 1 / 2 = ((2 * n + m : ℤ) : ℚ) / ((2 * m : ℕ) : ℚ) := by
    have hd0 : ((m : ℚ)) ≠ 0 := by positivity
    push_cast
    field_simp
    ring
  rw [h1, Rat.floor_intCast_div_natCast]
  unfold jsRoundDiv
  have h2 : ((2 * m : ℕ) : ℤ) = 2 * (m : ℤ) := by push_cast; ring
  rw [h2]

theorem scrollPane_eq_go (s : MState) (cx cy ax ay : ℤ)
    (hcx : s.currentX = some cx) (hcy : s.currentY = some cy)
    (hx : s.x = some ax) (hy : s.y = some ay) :
    scrollPane s = scrollPaneGo cx cy ax ay s := by
  unfold scrollPane
  rw [hcx, hcy, hx, hy]

theorem scrollPane_scrolling (s : MState) : (scrollPane s).scrolling = s.scrolling := by
  unfold scrollPane
  cases s.currentX <;> cases s.currentY <;> cases s.x <;> cases s.y <;> rfl

/-- `scrollPane` is the identity when any pointer sample is absent. -/
theorem scrollPane_absent (s : MState)
    (h : s.currentX = none ∨ s.currentY = none ∨ s.x = none ∨ s.y = none) :
    scrollPane s = s := by
  unfold scrollPane
  rcases hcx : s.currentX with _ | cx <;>
    rcases hcy : s.currentY with _ | cy <;>
      rcases hx : s.x with _ | ax <;>
        rcases hy : s.y with _ | ay <;>
          first
            | rfl
            | (exfalso
               rw [hcx, hcy, hx, hy] at h
               rcases h with h | h | h | h <;> exact Option.noConfusion h)

/-- After `stopScroll` no frame is pending, provided any pending handle
matched the recorded `animationFrameId` (true in every reachable state). -/
theorem stop_pending_none (s : MState)
    (h : s.pending = none ∨ s.pending = s.animationFrameId) :
    (stopScroll s).pending = none := by
  show (match s.animationFrameId with
    | some h => if s.pending = some h then none else s.pending
    | none => s.pending) = none
  rcases h with h | h
  · cases hafi : s.animationFrameId <;> simp [h]
  · cases hafi : s.animationFrameId with
    | none => rw [hafi] at h; simp [h]
    | some n => rw [hafi] at h; simp [h]

/-- Evaluation of `moveOf` with real division and floor-based half-up
rounding, exactly as the spec's `round((diff ∓ deadzone)/speed)` with
deadzone `5` and speed `2`. -/
theorem moveOf_eq_round (diff : ℤ) :
    moveOf diff =
      if diff > 5 then ⌊((diff - 5 : ℤ) : ℚ) / 2 + 1 / 2⌋
      else if diff < -5 then ⌊((diff + 5 : ℤ) : ℚ) / 2 + 1 / 2⌋
      else 0 := by
  have h2 : (((2 : ℤ)) : ℚ) = 2 := by norm_num
  unfold moveOf threshold speed
  split
  · rw [jsRoundDiv_eq_floor (diff - 5) 2 (by norm_num), h2]
  · split
    · rw [jsRoundDiv_eq_floor (diff + 5) 2 (by norm_num), h2]
    · rfl

theorem startScroll_scrolling (px py : ℤ) (s : MState) :
    (startScroll px py s).scrolling = true := by
  unfold startScroll
  rw [scrollPane_scrolling]

theorem createDot_scrolling (s : MState) : (createDot s).scrolling = s.scrolling := rfl

theorem windowMouseDown_scrolling (b : Bool) (px py : ℤ) (s : MState) :
    (windowMouseDown b px py s).scrolling =
      (if s.scrolling = true then false else if b = true then true else s.scrolling) := by
  unfold windowMouseDown
  by_cases hs : s.scrolling = true
  · rw [if_pos hs, if_pos hs]
    rfl
  · rw [if_neg hs, if_neg hs]
    cases b with
    | true =>
      show (startScroll px py (if s.dot = none then createDot s else s)).scrolling = true
      rw [startScroll_scrolling]
    | false =>
      show (if s.dot = none then createDot s else s).scrolling = s.scrolling
      split <;> rfl

theorem windowMouseUp_scrolling (s : MState) :
    (windowMouseUp s).scrolling = (if s.moving = true then false else s.scrolling) := by
  unfold windowMouseUp
  split <;> rfl

/-- Value of the `scrolling` flag after one event, as a function of the
pre-event state: any press while Scrolling stops; a middle press while
Idle starts; a release stops exactly when `moving` is set; disposal stops;
moves and ticks never change the flag. -/
theorem step_scrolling (s : MState) (e : Ev) :
    (step s e).scrolling =
      (match e with
        | .down b _ _ => if s.scrolling = true then false else if b = true then true else s.scrolling
        | .up => if s.moving = true then false else s.scrolling
        | .move _ _ => s.scrolling
        | .tick => s.scrolling
        | .dispose => false) := by
  cases e with
  | down b px py => exact windowMouseDown_scrolling b px py s
  | up => exact windowMouseUp_scrolling s
  | move px py =>
    show (if s.moveListener = true then setCurrent px py s else s).scrolling = s.scrolling
    split <;> rfl
  | tick =>
    show (match s.pending with
      | some _ => scrollPane { s with pending := none }
      | none => s).scrolling = s.scrolling
    cases s.pending with
    | none => rfl
    | some k => rw [scrollPane_scrolling]
  | dispose => rfl

theorem Inv_stopScroll (s : MState)
    (h : s.pending = none ∨ s.pending = s.animationFrameId) :
    Inv (stopScroll s) := by
  have hp : (stopScroll s).pending = none := stop_pending_none s h
  exact ⟨fun _ => ⟨rfl, rfl, hp⟩, Or.inl hp⟩

theorem startScroll_Inv (px py : ℤ) (t : MState) (ht : t.scrolling = false) :
    Inv (startScroll px py t) := by
  unfold startScroll
  rw [if_neg (by simp [ht])]
  rw [scrollPane_eq_go _ px py px py rfl rfl rfl rfl]
  refine ⟨fun hc => ?_, Or.inr rfl⟩
  · exfalso
    simp [scrollPaneGo] at hc

theorem Inv_step (s : MState) (e : Ev) (hI : Inv s) : Inv (step s e) := by
  obtain ⟨h1, h2⟩ := hI
  cases e with
  | down b px py =>
    show Inv (windowMouseDown b px py s)
    unfold windowMouseDown
    by_cases hs : s.scrolling = true
    · rw [if_pos hs]
      exact Inv_stopScroll s h2
    · rw [if_neg hs]
      have hs' : s.scrolling = false := by
        cases hsc : s.scrolling
        · rfl
        · exact absurd hsc hs
      cases b with
      | false =>
        show Inv (if s.dot = none then createDot s else s)
        split
        · exact ⟨fun h => h1 h, h2⟩
        · exact ⟨h1, h2⟩
      | true =>
        show Inv (startScroll px py (if s.dot = none then createDot s else s))
        refine startScroll_Inv px py _ ?_
        split
        · exact hs'
        · exact hs'
  | up =>
    show Inv (windowMouseUp s)
    unfold windowMouseUp
    split
    · exact Inv_stopScroll s h2
    · exact ⟨h1, h2⟩
  | move px py =>
    show Inv (if s.moveListener = true then setCurrent px py s else s)
    split
    · exact ⟨fun h => h1 h, h2⟩
    · exact ⟨h1, h2⟩
  | tick =>
    show Inv (match s.pending with
      | some _ => scrollPane { s with pending := none }
      | none => s)
    cases hp : s.pending with
    | none => exact ⟨h1, h2⟩
    | some k =>
      have hsc : s.scrolling = true := by
        cases hsc : s.scrolling
        · have := (h1 hsc).2.2
          rw [hp] at this
          exact absurd this (by simp)
        · rfl
      show Inv (scrollPane { s with pending := none })
      by_cases hex : ∃ cx cy ax ay, s.currentX = some cx ∧ s.currentY = some cy ∧
          s.x = some ax ∧ s.y = some ay
      · obtain ⟨cx, cy, ax, ay, hcx, hcy, hx, hy⟩ := hex
        rw [scrollPane_eq_go ({ s with pending := none }) cx cy ax ay hcx hcy hx hy]
        refine ⟨fun hc => ?_, Or.inr rfl⟩
        exfalso
        simp [scrollPaneGo, hsc] at hc
      · have habs : s.currentX = none ∨ s.currentY = none ∨ s.x = none ∨ s.y = none := by
          cases hcx : s.currentX with
          | none => exact Or.inl rfl
          | some cx =>
            cases hcy : s.currentY with
            | none => exact Or.inr (Or.inl rfl)
            | some cy =>
              cases hx : s.x with
              | none => exact Or.inr (Or.inr (Or.inl rfl))
              | some ax =>
                cases hy : s.y with
                | none => exact Or.inr (Or.inr (Or.inr rfl))
                | some ay => exact absurd ⟨cx, cy, ax, ay, hcx, hcy, hx, hy⟩ hex
        rw [scrollPane_absent ({ s with pending := none }) habs]
        exact ⟨fun h => ⟨(h1 h).1, (h1 h).2.1, rfl⟩, Or.inl rfl⟩
  | dispose =>
    show Inv { stopScroll s with dot := none }
    have := Inv_stopScroll s h2
    exact ⟨fun h => (this.1 h), this.2⟩

theorem Inv_foldl (es : List Ev) : ∀ s : MState, Inv s → Inv (es.foldl step s) := by
  induction es with
  | nil => exact fun s h => h
  | cons e es ih => exact fun s h => ih (step s e) (Inv_step s e h)

theorem Inv_run (es : List Ev) : Inv (run es) :=
  Inv_foldl es init ⟨fun _ => ⟨rfl, rfl, rfl⟩, Or.inl rfl⟩

theorem sessionRecentAux_foldl (es : List Ev) :
    ∀ s : MState, sessionRecentAux s s.scrolling es = (es.foldl step s).scrolling := by
  induction es with
  | nil => exact fun _ => rfl
  | cons e es ih =>
    intro s
    show sessionRecentAux (step s e)
      (match e with
        | .down b _ _ =>
            if s.scrolling = true then false else if b = true then true else s.scrolling
        | .up => if s.moving = true then false else s.scrolling
        | .dispose => false
        | _ => s.scrolling) es = (List.foldl step (step s e) es).scrolling
    have hr : (match e with
        | Ev.down b _ _ =>
            if s.scrolling = true then false else if b = true then true else s.scrolling
        | Ev.up => if s.moving = true then false else s.scrolling
        | Ev.dispose => false
        | _ => s.scrolling) = (step s e).scrolling := by
      rw [step_scrolling]
      cases e <;> rfl
    rw [hr]
    exact ih (step s e)

/-! ## C1: the per-tick scroll step formula -/

/-- C1: on every frame tick while Scrolling with anchor `(ax, ay)` and
current `(cx, cy)` set, the vertical step added to the pre-tick
`scrollTop` is `round((diffY - 5)/2)` when `diffY = cy - ay` exceeds the
deadzone `5`, `round((diffY + 5)/2)` when `diffY < -5`, and `0` otherwise
(rounding half toward `+∞` as JS `Math.round`); symmetrically for the
horizontal step and `scrollLeft`. -/
theorem C1_scroll_step (s : MState) (cx cy ax ay : ℤ)
    (hcx : s.currentX = some cx) (hcy : s.currentY = some cy)
    (hx : s.x = some ax) (hy : s.y = some ay)
    (_hs : s.scrolling = true) :
    (scrollPane s).scrollTop = s.scrollTop +
      (if cy - ay > 5 then ⌊((cy - ay - 5 : ℤ) : ℚ) / 2 + 1 / 2⌋
       else if cy - ay < -5 then ⌊((cy - ay + 5 : ℤ) : ℚ) / 2 + 1 / 2⌋
       else 0) ∧
    (scrollPane s).scrollLeft = s.scrollLeft +
      (if cx - ax > 5 then ⌊((cx - ax - 5 : ℤ) : ℚ) / 2 + 1 / 2⌋
       else if cx - ax < -5 then ⌊((cx - ax + 5 : ℤ) : ℚ) / 2 + 1 / 2⌋
       else 0) := by
  rw [scrollPane_eq_go s cx cy ax ay hcx hcy hx hy]
  constructor
  · show s.scrollTop + moveOf (cy - ay) = _
    rw [moveOf_eq_round]
  · show s.scrollLeft + moveOf (cx - ax) = _
    rw [moveOf_eq_round]

theorem C1_scroll_step_witness :
    (scrollPane s106).scrollTop = s106.scrollTop +
      (if (106 : ℤ) - 100 > 5 then ⌊(((106 : ℤ) - 100 - 5 : ℤ) : ℚ) / 2 + 1 / 2⌋
       else if (106 : ℤ) - 100 < -5 then ⌊(((106 : ℤ) - 100 + 5 : ℤ) : ℚ) / 2 + 1 / 2⌋
       else 0) ∧
    (scrollPane s106).scrollLeft = s106.scrollLeft +
      (if (100 : ℤ) - 100 > 5 then ⌊(((100 : ℤ) - 100 - 5 : ℤ) : ℚ) / 2 + 1 / 2⌋
       else if (100 : ℤ) - 100 < -5 then ⌊(((100 : ℤ) - 100 + 5 : ℤ) : ℚ) / 2 + 1 / 2⌋
       else 0) :=
  C1_scroll_step s106 100 106 100 100 rfl rfl rfl rfl rfl

/-! ## C2: pointer-up stops the session iff movement was recorded -/

/-- C2: while Scrolling, a pointer-up ends the session exactly when
`moving` (`hasMoved`) is set; a release with no recorded movement leaves
the controller Scrolling. -/
theorem C2_up_stops_iff_moved (s : MState) (hs : s.scrolling = true) :
    ((windowMouseUp s).scrolling = false ↔ s.moving = true) ∧
    (s.moving = false → (windowMouseUp s).scrolling = true) := by
  unfold windowMouseUp
  cases hm : s.moving
  · simp [hs]
  · simp [stopScroll]

theorem C2_up_stops_iff_moved_witness :
    ((windowMouseUp c2state).scrolling = false ↔ c2state.moving = true) ∧
    (c2state.moving = false → (windowMouseUp c2state).scrolling = true) :=
  C2_up_stops_iff_moved c2state rfl

/-! ## C3: when is the controller Scrolling? (corrected) -/

/-- C3 counterexample: after two middle-button downs the controller is
Idle (the second down stops the session), yet a middle-down has occurred
more recently than any stop-triggering up or disposal — so the claimed
equivalence fails. -/
theorem C3_counterexample :
    ¬ ((run [Ev.down true 0 0, Ev.down true 0 0]).scrolling = true ↔
        claimRecent [Ev.down true 0 0, Ev.down true 0 0] = true) := by
  decide

/-- C3 amended: for every event sequence from the initial state, the
controller is Scrolling exactly when a session-starting middle-button down
has occurred more recently than any stop-triggering event (a press
delivered while Scrolling, an up delivered while movement is recorded, or
disposal). -/
theorem C3_scrolling_iff (es : List Ev) :
    (run es).scrolling = sessionRecent es :=
  (sessionRecentAux_foldl es init).symm

/-! ## C4: the deadzone threshold edges (corrected) -/

/-- C4 counterexample: at current `y = 94` the claimed direction code
"includes 'n'" fails — JS `Math.round(-0.5)` is `0`, so the tick publishes
the empty code (no `'n'`) and leaves `scrollTop` unchanged. -/
theorem C4_counterexample :
    (scrollPane s94).dataScrollDirection = some "" ∧
    ((scrollPane s94).dataScrollDirection.getD "?") ∉
      (["n", "nw", "ne"] : List String) ∧
    (scrollPane s94).scrollTop = s94.scrollTop := by
  decide

/-- C4 amended: for anchor `y = 100`, current `y = 106`, the tick computes
`moveY = round(0.5) = 1`, `scrollTop` increases by `1`, and the direction
code is `"s"`; for current `y = 94`, `moveY = round(-0.5) = 0` (JS rounds
half toward `+∞`), so `scrollTop` is unchanged and the direction code is
empty — it does not include `'n'`. -/
theorem C4_threshold_edges :
    (scrollPane s106).scrollTop = s106.scrollTop + 1 ∧
    (scrollPane s106).dataScrollDirection = some "s" ∧
    ((scrollPane s106).dataScrollDirection.getD "?") ∈
      (["s", "sw", "se"] : List String) ∧
    ⌊((1 : ℚ)) / 2 + 1 / 2⌋ = 1 ∧
    moveOf (106 - 100) = 1 ∧
    (scrollPane s94).scrollTop = s94.scrollTop ∧
    (scrollPane s94).dataScrollDirection = some "" ∧
    ⌊((-1 : ℚ)) / 2 + 1 / 2⌋ = 0 ∧
    moveOf (94 - 100) = 0 := by
  refine ⟨by decide, by decide, by decide, ?_, by decide, by decide, by decide, ?_, by decide⟩
  · have h : ((1 : ℚ)) / 2 + 1 / 2 = 1 := by norm_num
    rw [h, Int.floor_one]
  · have h : ((-1 : ℚ)) / 2 + 1 / 2 = 0 := by norm_num
    rw [h, Int.floor_zero]

/-! ## C5: what `stopScroll` guarantees (corrected) -/

/-- C5 counterexample: after `stopScroll` the pending frame is cancelled,
yet the frame callback itself never consults the `scrolling` flag — if a
stray already-queued callback nonetheless fired after stop, it would still
mutate the viewport (`scrollTop` changes by `round((20-5)/2) = 8`). -/
theorem C5_counterexample :
    s5stopped.scrolling = false ∧
    s5stopped.pending = none ∧
    (scrollPane s5stopped).scrollTop ≠ s5stopped.scrollTop := by
  decide

/-- C5 amended: after `stopScroll` returns, the pending frame callback has
been synchronously cancelled (given the scheduler invariant that any
pending handle equals the recorded `animationFrameId`), the move listener
removed, and the frame handle cleared, so under the scheduler semantics no
further tick fires; the guarantee does not extend to a stray already-queued
callback, which would still mutate the viewport since the tick performs no
`scrolling` check. -/
theorem C5_stop_cancels (s : MState)
    (h : s.pending = none ∨ s.pending = s.animationFrameId) :
    (stopScroll s).pending = none ∧
    (stopScroll s).moveListener = false ∧
    (stopScroll s).animationFrameId = none ∧
    step (stopScroll s) Ev.tick = stopScroll s := by
  have hp : (stopScroll s).pending = none := stop_pending_none s h
  refine ⟨hp, rfl, rfl, ?_⟩
  show (match (stopScroll s).pending with
    | some _ => scrollPane { stopScroll s with pending := none }
    | none => stopScroll s) = stopScroll s
  rw [hp]

theorem C5_stop_cancels_witness :
    (stopScroll c2state).pending = none ∧
    (stopScroll c2state).moveListener = false ∧
    (stopScroll c2state).animationFrameId = none ∧
    step (stopScroll c2state) Ev.tick = stopScroll c2state :=
  C5_stop_cancels c2state (Or.inl rfl)

/-! ## C6: `stopScroll` is idempotent -/

/-- C6: `stopScroll` is total on every controller state and idempotent:
a second call changes nothing beyond the first. -/
theorem C6_stop_idempotent (s : MState) : stopScroll (stopScroll s) = stopScroll s := by
  unfold stopScroll
  cases s.dot <;> rfl

/-! ## C7: rescheduling of the frame tick (corrected) -/

/-- C7 counterexample: a frame tick while Scrolling with the `currentX`
sample absent does not reschedule — `scrollPane` returns the state
unchanged, leaving no pending frame and a null `animationFrameId`. -/
theorem C7_counterexample :
    scrollPane s7gap = s7gap ∧
    (scrollPane s7gap).pending = none ∧
    (scrollPane s7gap).animationFrameId = none := by
  decide

/-- C7 amended: a frame tick reschedules itself for the next frame
whenever all four pointer samples are present; when any sample is absent
the tick returns early, neither computing a scroll step nor rescheduling,
so the frame loop halts. -/
theorem C7_tick_reschedule (s : MState) :
    (∀ cx cy ax ay, s.currentX = some cx → s.currentY = some cy →
      s.x = some ax → s.y = some ay →
      (scrollPane s).pending = some s.nextHandle ∧
      (scrollPane s).animationFrameId = some s.nextHandle ∧
      (scrollPane s).nextHandle = s.nextHandle + 1) ∧
    ((s.currentX = none ∨ s.currentY = none ∨ s.x = none ∨ s.y = none) →
      scrollPane s = s) := by
  constructor
  · intro cx cy ax ay hcx hcy hx hy
    rw [scrollPane_eq_go s cx cy ax ay hcx hcy hx hy]
    exact ⟨rfl, rfl, rfl⟩
  · exact scrollPane_absent s

theorem C7_tick_reschedule_witness :
    ((scrollPane s106).pending = some s106.nextHandle ∧
      (scrollPane s106).animationFrameId = some s106.nextHandle ∧
      (scrollPane s106).nextHandle = s106.nextHandle + 1) ∧
    scrollPane s7gap = s7gap :=
  ⟨(C7_tick_reschedule s106).1 100 106 100 100 rfl rfl rfl rfl,
    (C7_tick_reschedule s7gap).2 (Or.inl rfl)⟩

/-! ## C8: the direction code and `hasMoved` -/

/-- C8: every tick publishes the direction code `'n'`/`'s'` from the sign
of the vertical step concatenated with `'w'`/`'e'` from the sign of the
horizontal step; the code always lies in the nine-element compass set, and
`moving` (`hasMoved`) becomes true exactly when the code is non-empty —
an empty code leaves `moving` untouched. -/
theorem C8_direction_code (s : MState) (cx cy ax ay : ℤ)
    (hcx : s.currentX = some cx) (hcy : s.currentY = some cy)
    (hx : s.x = some ax) (hy : s.y = some ay) :
    (scrollPane s).dataScrollDirection =
      some ((if moveOf (cy - ay) < 0 then "n" else if moveOf (cy - ay) > 0 then "s" else "")
        ++ (if moveOf (cx - ax) < 0 then "w" else if moveOf (cx - ax) > 0 then "e" else "")) ∧
    dirOf (moveOf (cy - ay)) (moveOf (cx - ax)) ∈
      (["", "n", "s", "w", "e", "nw", "ne", "sw", "se"] : List String) ∧
    ((scrollPane s).moving = true ↔
      (s.moving = true ∨ dirOf (moveOf (cy - ay)) (moveOf (cx - ax)) ≠ "")) ∧
    (dirOf (moveOf (cy - ay)) (moveOf (cx - ax)) = "" →
      (scrollPane s).moving = s.moving) := by
  rw [scrollPane_eq_go s cx cy ax ay hcx hcy hx hy]
  refine ⟨rfl, ?_, ?_, ?_⟩
  · unfold dirOf
    split_ifs <;> simp
  · show (if dirOf (moveOf (cy - ay)) (moveOf (cx - ax)) ≠ "" then true else s.moving) = true ↔ _
    by_cases hd : dirOf (moveOf (cy - ay)) (moveOf (cx - ax)) = ""
    · simp [hd]
    · simp [hd]
  · intro hd
    show (if dirOf (moveOf (cy - ay)) (moveOf (cx - ax)) ≠ "" then true else s.moving) = s.moving
    simp [hd]

theorem C8_direction_code_witness :
    (scrollPane s106).dataScrollDirection =
      some ((if moveOf ((106 : ℤ) - 100) < 0 then "n"
        else if moveOf ((106 : ℤ) - 100) > 0 then "s" else "")
        ++ (if moveOf ((100 : ℤ) - 100) < 0 then "w"
        else if moveOf ((100 : ℤ) - 100) > 0 then "e" else "")) ∧
    dirOf (moveOf ((106 : ℤ) - 100)) (moveOf ((100 : ℤ) - 100)) ∈
      (["", "n", "s", "w", "e", "nw", "ne", "sw", "se"] : List String) ∧
    ((scrollPane s106).moving = true ↔
      (s106.moving = true ∨ dirOf (moveOf ((106 : ℤ) - 100)) (moveOf ((100 : ℤ) - 100)) ≠ "")) ∧
    (dirOf (moveOf ((106 : ℤ) - 100)) (moveOf ((100 : ℤ) - 100)) = "" →
      (scrollPane s106).moving = s106.moving) :=
  C8_direction_code s106 100 106 100 100 rfl rfl rfl rfl

/-! ## C9: coincident anchor and current produce no scrolling -/

/-- C9: when the current sample coincides with the anchor, the tick
computes zero steps, publishes the empty direction code, and leaves both
viewport offsets unchanged. -/
theorem C9_no_movement (s : MState) (p q : ℤ)
    (hcx : s.currentX = some p) (hcy : s.currentY = some q)
    (hx : s.x = some p) (hy : s.y = some q) :
    moveOf (p - p) = 0 ∧ moveOf (q - q) = 0 ∧
    (scrollPane s).scrollTop = s.scrollTop ∧
    (scrollPane s).scrollLeft = s.scrollLeft ∧
    (scrollPane s).dataScrollDirection = some "" := by
  rw [scrollPane_eq_go s p q p q hcx hcy hx hy]
  have hp : moveOf (p - p) = 0 := by simp [moveOf, threshold]
  have hq : moveOf (q - q) = 0 := by simp [moveOf, threshold]
  refine ⟨hp, hq, ?_, ?_, ?_⟩
  · show s.scrollTop + moveOf (q - q) = s.scrollTop
    rw [hq, add_zero]
  · show s.scrollLeft + moveOf (p - p) = s.scrollLeft
    rw [hp, add_zero]
  · show some (dirOf (moveOf (q - q)) (moveOf (p - p))) = some ""
    rw [hp, hq]
    rfl

theorem C9_no_movement_witness :
    moveOf ((100 : ℤ) - 100) = 0 ∧ moveOf ((100 : ℤ) - 100) = 0 ∧
    (scrollPane c9state).scrollTop = c9state.scrollTop ∧
    (scrollPane c9state).scrollLeft = c9state.scrollLeft ∧
    (scrollPane c9state).dataScrollDirection = some "" :=
  C9_no_movement c9state 100 100 rfl rfl rfl rfl

/-! ## C10: the idle-state invariant -/

/-- C10: in every reachable controller state, `scrolling = false` implies
`animationFrameId = none` and `moving = false`; since reachability is
closed under every operation (mouse-down, mouse-up, move, frame tick,
disposal), each operation preserves this invariant. -/
theorem C10_idle_invariant (es : List Ev) (h : (run es).scrolling = false) :
    (run es).animationFrameId = none ∧ (run es).moving = false :=
  ⟨((Inv_run es).1 h).1, ((Inv_run es).1 h).2.1⟩

theorem C10_idle_invariant_witness :
    (run [Ev.down true 0 0, Ev.down true 0 0]).animationFrameId = none ∧
    (run [Ev.down true 0 0, Ev.down true 0 0]).moving = false :=
  C10_idle_invariant [Ev.down true 0 0, Ev.down true 0 0] (by decide)

end MiddleScroll
